import Mathlib

/-!
Verification development for the Code Doctor application.

The embedding below follows the TypeScript sources:
* `src/types.ts` — the data model (trace steps, flashcard drafts, flashcards).
* `src/App.tsx` — the flashcard collection operations `handleUpdateCard`
  (recording a review answer), `clearMasteredCards`, and the flashcard
  ingestion performed inside `handleDiagnose`.
* `src/unnamed/part_000` (the `FlashcardReview` component) — the review
  session: the active-card filter, the current-card read, the
  advance-to-next-card step, and the answer-equivalence check `handleCheck`.
* `src/services/geminiService.ts` — the retry loop of `analyzeCode`.

JavaScript strings are modelled as Lean `String`/`List Char`; JavaScript
numbers that only ever hold non-negative integers are modelled as `Nat`.
-/

/-! ## Data model (src/types.ts) -/

/-- `TraceStatus` from src/types.ts. -/
inductive TraceStatus
  | success
  | warning
  | error
deriving DecidableEq

/-- `TraceStep` from src/types.ts.  Optional fields become `Option`. -/
structure TraceStep where
  status : TraceStatus
  title : String
  desc : String
  isError : Bool
  badCode : Option String
  goodCode : Option String
  errorHighlight : Option String
  reason : Option String
  tip : Option String
deriving DecidableEq

/-- `FlashcardData` from src/types.ts — a flashcard draft with no identity. -/
structure FlashcardData where
  concept : String
  frontCode : String
  errorHighlight : Option String
  backCode : String
  explanation : String
deriving DecidableEq

/-- The status field of a flashcard's stats: `'new' | 'learning' | 'critical' | 'mastered'`. -/
inductive CardStatus
  | new
  | learning
  | critical
  | mastered
deriving DecidableEq

/-- The `stats` record of a `Flashcard` (src/types.ts). -/
structure CardStats where
  correctStreak : Nat
  incorrectCount : Nat
  status : CardStatus
deriving DecidableEq

/-- `Flashcard` from src/types.ts: `interface Flashcard extends FlashcardData`
with an `id` and `stats`. -/
structure Flashcard extends FlashcardData where
  id : String
  stats : CardStats
deriving DecidableEq

/-! ## Flashcard mastery engine (src/App.tsx) -/

/-- The callback applied to each card inside `handleUpdateCard`
(src/App.tsx lines 94–119): the card whose id matches is updated
according to the answer, every other card is returned unchanged. -/
def updateCard (id : String) (isCorrect : Bool) (card : Flashcard) : Flashcard :=
  if card.id ≠ id then card
  else
    if isCorrect then
      -- newStats.correctStreak += 1; status = mastered if streak >= 3 else learning
      let streak := card.stats.correctStreak + 1
      { card with stats :=
          { card.stats with
              correctStreak := streak
              status := if streak ≥ 3 then CardStatus.mastered else CardStatus.learning } }
    else
      -- newStats.correctStreak = 0; newStats.incorrectCount += 1;
      -- status = critical if incorrectCount >= 3 else unchanged
      let inc := card.stats.incorrectCount + 1
      { card with stats :=
          { card.stats with
              correctStreak := 0
              incorrectCount := inc
              status := if inc ≥ 3 then CardStatus.critical else card.stats.status } }

/-- `handleUpdateCard` (src/App.tsx line 92): `setFlashcards(prev => prev.map(...))`. -/
def handleUpdateCard (cards : List Flashcard) (id : String) (isCorrect : Bool) :
    List Flashcard :=
  cards.map (updateCard id isCorrect)

/-- `clearMasteredCards` (src/App.tsx lines 122–126).  The function returns
nothing in the source; besides the new collection we record the two numbers
it logs: `countBefore` and `flashcards.length` — the latter still reads the
pre-update state, so both logged numbers are the old length. -/
def clearMasteredCards (flashcards : List Flashcard) : List Flashcard × Nat × Nat :=
  let countBefore := flashcards.length
  let newList := flashcards.filter (fun c => c.stats.status ≠ CardStatus.mastered)
  (newList, countBefore, flashcards.length)

/-- The id synthesized for a newly ingested card (src/App.tsx line 64):
the template literal `Date.now()`-`index`. -/
def mkCardId (now idx : Nat) : String :=
  Nat.repr now ++ "-" ++ Nat.repr idx

/-- The stats every newly created card starts with (src/App.tsx lines 65–69). -/
def newCardStats : CardStats :=
  { correctStreak := 0, incorrectCount := 0, status := CardStatus.new }

/-- `result.generatedFlashcards.map((data, index) => ...)` (src/App.tsx
lines 62–70), written as index-carrying recursion: each draft becomes a card
with id built from the timestamp and its position in the batch. -/
def mkNewCards (now : Nat) : Nat → List FlashcardData → List Flashcard
  | _, [] => []
  | i, d :: ds =>
    { toFlashcardData := d, id := mkCardId now i, stats := newCardStats } ::
      mkNewCards now (i + 1) ds

/-- The flashcard-ingestion step of `handleDiagnose` (src/App.tsx line 72):
`setFlashcards(prev => [...prev, ...newCards])`, where `now` is the value of
`Date.now()` at the moment of the call. -/
def handleDiagnoseCards (prev : List Flashcard) (now : Nat)
    (drafts : List FlashcardData) : List Flashcard :=
  prev ++ mkNewCards now 0 drafts

/-! ## Review session (src/unnamed/part_000, FlashcardReview) -/

/-- `const activeCards = cards.filter(c => c.stats.status !== 'mastered')`. -/
def activeCards (cards : List Flashcard) : List Flashcard :=
  cards.filter (fun c => c.stats.status ≠ CardStatus.mastered)

/-- `const currentCard = activeCards[currentIndex]` — JavaScript indexing
out of range yields `undefined`, modelled as `none`.  When the read yields
`none` the component renders nothing (`if (!currentCard) return null`). -/
def currentCard (cards : List Flashcard) (currentIndex : Nat) : Option Flashcard :=
  (activeCards cards)[currentIndex]?

/-- `handleNext`: `if (currentIndex < activeCards.length - 1) currentIndex + 1
else 0`.  (For an empty active list JavaScript compares against `-1`; the
comparison is false there exactly as with truncated `Nat` subtraction.) -/
def handleNext (cards : List Flashcard) (currentIndex : Nat) : Nat :=
  if currentIndex < (activeCards cards).length - 1 then currentIndex + 1 else 0

/-- The character class of the JavaScript regular-expression escape for
whitespace, by code point: tab, line feed, vertical tab, form feed,
carriage return, space, no-break space, ogham space mark, the en-quad to
hair-space block, line separator, paragraph separator, narrow no-break
space, medium mathematical space, ideographic space, byte order mark. -/
def isJsWhitespace (c : Char) : Bool :=
  let n := c.toNat
  n = 9 || n = 10 || n = 11 || n = 12 || n = 13 || n = 32 || n = 160 ||
  n = 0x1680 || (0x2000 ≤ n && n ≤ 0x200A) || n = 0x2028 || n = 0x2029 ||
  n = 0x202F || n = 0x205F || n = 0x3000 || n = 0xFEFF

/-- `str.replace(/\s+/g, '')`: every whitespace character is removed. -/
def removeAllWhitespace (s : String) : List Char :=
  s.data.filter (fun c => !isJsWhitespace c)

/-- JavaScript `String.prototype.trim`, over the character list. -/
def jsTrim (l : List Char) : List Char :=
  ((l.dropWhile isJsWhitespace).reverse.dropWhile isJsWhitespace).reverse

/-- The `normalize` helper inside `handleCheck`
(src/unnamed/part_000 lines 70–72): `str.replace(/\s+/g, '').trim()`. -/
def normalizeAnswer (s : String) : List Char :=
  jsTrim (removeAllWhitespace s)

/-- The comparison performed by `handleCheck`:
`normalize(userInput) === normalize(currentCard.backCode)`. -/
def answersEquivalent (userInput backCode : String) : Bool :=
  normalizeAnswer userInput == normalizeAnswer backCode

/-! ## Diagnosis request pipeline (src/services/geminiService.ts) -/

/-- The runtime value produced by `JSON.parse(response.text)`.  The source
casts it to `DiagnosisResponse` with `as`, which performs no runtime check,
so every field may in fact be absent. -/
structure ParsedDiagnosis where
  rawError : Option String
  trace : Option (List TraceStep)
  generatedFlashcards : Option (List FlashcardData)
deriving DecidableEq

/-- What one attempt of the loop body observes from the collaborator:
the request may throw, the response text may be empty
(`if (!response.text) throw`), `JSON.parse` may throw, or parsing succeeds
with some runtime value. -/
inductive AttemptOutcome
  | netError
  | emptyText
  | parseError
  | parsed (v : ParsedDiagnosis)

/-- Whether an attempt outcome lands in the `catch` block of the loop. -/
def isFailure : AttemptOutcome → Bool
  | AttemptOutcome.parsed _ => false
  | _ => true

/-- The errors `analyzeCode` can throw. -/
inductive AnalysisError
  | missingApiKey
  | failedAfterRetries
  | loopFellThrough
deriving DecidableEq

/-- Observable outcome of one run of `analyzeCode`: the returned or thrown
value, the number of collaborator attempts made, and the list of backoff
sleeps performed (in order, in milliseconds). -/
structure AnalysisRun where
  result : Except AnalysisError ParsedDiagnosis
  attemptsMade : Nat
  delays : List Nat

/-- The `while (attempts < maxAttempts)` loop of `analyzeCode`
(src/services/geminiService.ts lines 100–144), with `maxAttempts = 5`.
On success the parsed value is returned as-is; in the `catch` block the
attempt counter is incremented, the terminal error is thrown once it
reaches 5, and otherwise the loop sleeps `1000 * 2 ^ (attempts - 1)`
milliseconds and retries. -/
def analyzeLoop (collab : Nat → AttemptOutcome) (attempts : Nat)
    (delays : List Nat) : AnalysisRun :=
  if attempts < 5 then
    match collab attempts with
    | AttemptOutcome.parsed v => ⟨Except.ok v, attempts + 1, delays⟩
    | _ =>
      if attempts + 1 ≥ 5 then
        ⟨Except.error AnalysisError.failedAfterRetries, attempts + 1, delays⟩
      else
        analyzeLoop collab (attempts + 1) (delays ++ [1000 * 2 ^ (attempts + 1 - 1)])
  else ⟨Except.error AnalysisError.loopFellThrough, attempts, delays⟩
termination_by 5 - attempts
decreasing_by omega

/-- `analyzeCode`: after the API-key guard, run the retry loop starting with
`attempts = 0`.  The `collab` argument abstracts the generation collaborator
together with `JSON.parse`, giving the outcome of each numbered attempt. -/
def analyzeCode (apiKeyPresent : Bool) (collab : Nat → AttemptOutcome) : AnalysisRun :=
  if apiKeyPresent then analyzeLoop collab 0 []
  else ⟨Except.error AnalysisError.missingApiKey, 0, []⟩

/-! ## Spec-side comparison definitions -/

/-- Error kind of the spec's `recordAnswer` contract. -/
inductive RecordError
  | notFound
deriving DecidableEq

/-- Modelled from the spec: the contract `recordAnswer(id, isCorrect)` of
§4.2, which "fails with `NotFound` if no card with `id` exists" and
otherwise applies the transition; stated here only to compare the source's
`handleUpdateCard` against the spec's words. -/
def recordAnswerSpec (cards : List Flashcard) (id : String) (isCorrect : Bool) :
    Except RecordError (List Flashcard) :=
  if cards.any (fun c => c.id = id) then Except.ok (handleUpdateCard cards id isCorrect)
  else Except.error RecordError.notFound

/-- Modelled from the spec: the acceptance condition §4.4 claims for a
collaborator response — "a non-empty `rawError` string and a `trace`
sequence (possibly empty)"; stated here only to compare the source's
behaviour against the spec's words. -/
def specUsableDiagnosis (v : ParsedDiagnosis) : Prop :=
  (∃ s, v.rawError = some s ∧ s ≠ "") ∧ (∃ t, v.trace = some t)

/-! ## Decimal digits decoding, used to prove card ids distinct -/

/-- Value of a most-significant-first list of decimal digit characters. -/
def digitsVal (l : List Char) : Nat :=
  l.foldl (fun a c => 10 * a + (c.toNat - 48)) 0

/-! ## Concrete cards, drafts and collaborators used in counterexamples
and witnesses -/

def draftOne : FlashcardData :=
  { concept := "c1", frontCode := "f1", errorHighlight := none,
    backCode := "b1", explanation := "e1" }

def draftTwo : FlashcardData :=
  { concept := "c2", frontCode := "f2", errorHighlight := none,
    backCode := "b2", explanation := "e2" }

/-- A card that has never been answered. -/
def cardA : Flashcard :=
  { toFlashcardData := draftOne, id := "a", stats := newCardStats }

/-- A learning card one correct answer away from mastery. -/
def cardB : Flashcard :=
  { toFlashcardData := draftTwo, id := "b",
    stats := { correctStreak := 2, incorrectCount := 0, status := CardStatus.learning } }

/-- A mastered card that has already missed twice. -/
def mastCard : Flashcard :=
  { toFlashcardData := draftOne, id := "m",
    stats := { correctStreak := 3, incorrectCount := 2, status := CardStatus.mastered } }

/-- A mastered card with no misses, for witnesses. -/
def mastCardClean : Flashcard :=
  { toFlashcardData := draftTwo, id := "n",
    stats := { correctStreak := 3, incorrectCount := 0, status := CardStatus.mastered } }

/-- A collaborator whose every attempt fails with a network error. -/
def collabAllFail : Nat → AttemptOutcome := fun _ => AttemptOutcome.netError

/-- The runtime value of `JSON.parse` applied to an empty object literal:
every field is absent. -/
def emptyParsed : ParsedDiagnosis :=
  { rawError := none, trace := none, generatedFlashcards := none }

/-- A collaborator that immediately returns a JSON object with none of the
required fields. -/
def collabEmptyObj : Nat → AttemptOutcome := fun _ => AttemptOutcome.parsed emptyParsed

/-! ## Helper lemmas -/

theorem updateCard_ne (id : String) (b : Bool) (c : Flashcard) (h : c.id ≠ id) :
    updateCard id b c = c := by
  simp [updateCard, h]

theorem updateCard_correct (id : String) (c : Flashcard) (h : c.id = id) :
    updateCard id true c =
      { c with stats :=
          { correctStreak := c.stats.correctStreak + 1
            incorrectCount := c.stats.incorrectCount
            status := if c.stats.correctStreak + 1 ≥ 3 then CardStatus.mastered
                      else CardStatus.learning } } := by
  simp [updateCard, h]

theorem updateCard_incorrect (id : String) (c : Flashcard) (h : c.id = id) :
    updateCard id false c =
      { c with stats :=
          { correctStreak := 0
            incorrectCount := c.stats.incorrectCount + 1
            status := if c.stats.incorrectCount + 1 ≥ 3 then CardStatus.critical
                      else c.stats.status } } := by
  simp [updateCard, h]

/-! ## Claims about recording answers -/

/-- Claim C1: `handleUpdateCard` maps the transition over the collection:
on a correct answer the matching card's streak is incremented and its status
becomes mastered exactly when the new streak is at least 3, else learning;
on an incorrect answer the streak resets, the incorrect count is
incremented, and the status becomes critical exactly when the new count is
at least 3, else keeps its prior value; every card with a different id is
unchanged. -/
theorem recordAnswer_transition (cards : List Flashcard) (id : String) (b : Bool) :
    handleUpdateCard cards id b = cards.map (updateCard id b) ∧
    ∀ c : Flashcard,
      (c.id ≠ id → updateCard id b c = c) ∧
      (c.id = id → b = true →
        updateCard id b c =
          { c with stats :=
              { correctStreak := c.stats.correctStreak + 1
                incorrectCount := c.stats.incorrectCount
                status := if c.stats.correctStreak + 1 ≥ 3 then CardStatus.mastered
                          else CardStatus.learning } }) ∧
      (c.id = id → b = false →
        updateCard id b c =
          { c with stats :=
              { correctStreak := 0
                incorrectCount := c.stats.incorrectCount + 1
                status := if c.stats.incorrectCount + 1 ≥ 3 then CardStatus.critical
                          else c.stats.status } }) := by
  refine ⟨rfl, fun c => ⟨updateCard_ne id b c, ?_, ?_⟩⟩
  · intro h hb; subst hb; exact updateCard_correct id c h
  · intro h hb; subst hb; exact updateCard_incorrect id c h

theorem recordAnswer_transition_witness :
    cardB.id = "b" ∧
    updateCard "b" true cardB =
      { cardB with stats :=
          { correctStreak := cardB.stats.correctStreak + 1
            incorrectCount := cardB.stats.incorrectCount
            status := if cardB.stats.correctStreak + 1 ≥ 3 then CardStatus.mastered
                      else CardStatus.learning } } :=
  ⟨rfl, ((recordAnswer_transition [cardB] "b" true).2 cardB).2.1 rfl rfl⟩

/-- Claim C2 counterexample: a mastered card that has already missed twice
is demoted to critical by a single incorrect answer, so mastery is not
sticky. -/
theorem mastered_demoted_counterexample :
    mastCard.stats.status = CardStatus.mastered ∧
    (handleUpdateCard [mastCard] "m" false).map (fun c => c.stats.status) =
      [CardStatus.critical] ∧
    CardStatus.critical ≠ CardStatus.mastered := by
  refine ⟨rfl, by decide, by decide⟩

/-- Claim C2 (amended): an incorrect answer on a mastered card increments
`incorrectCount` and resets the streak; it demotes the card to critical as
soon as the new incorrect count reaches 3 and only keeps the status
mastered below that threshold; moreover a later correct answer whose
resulting streak is below 3 sets the status to learning.  Mastery is
therefore not sticky. -/
theorem mastery_not_sticky (cards : List Flashcard) (c : Flashcard)
    (hc : c ∈ cards) (hm : c.stats.status = CardStatus.mastered) :
    (updateCard c.id false c).stats.incorrectCount = c.stats.incorrectCount + 1 ∧
    (c.stats.incorrectCount + 1 ≥ 3 →
      (updateCard c.id false c).stats.status = CardStatus.critical) ∧
    (c.stats.incorrectCount + 1 < 3 →
      (updateCard c.id false c).stats.status = CardStatus.mastered) ∧
    (c.stats.correctStreak + 1 < 3 →
      (updateCard c.id true c).stats.status = CardStatus.learning) ∧
    updateCard c.id false c ∈ handleUpdateCard cards c.id false := by
  refine ⟨?_, ?_, ?_, ?_, ?_⟩
  · rw [updateCard_incorrect c.id c rfl]
  · intro h
    rw [updateCard_incorrect c.id c rfl]
    simp [h]
  · intro h
    rw [updateCard_incorrect c.id c rfl]
    simp only []
    rw [if_neg (by omega)]
    exact hm
  · intro h
    rw [updateCard_correct c.id c rfl]
    simp only []
    rw [if_neg (by omega)]
  · exact List.mem_map_of_mem (updateCard c.id false) hc

theorem mastery_not_sticky_witness :
    mastCard ∈ [mastCard] ∧ mastCard.stats.status = CardStatus.mastered ∧
    ((updateCard mastCard.id false mastCard).stats.incorrectCount =
        mastCard.stats.incorrectCount + 1 ∧
      (mastCard.stats.incorrectCount + 1 ≥ 3 →
        (updateCard mastCard.id false mastCard).stats.status = CardStatus.critical) ∧
      (mastCard.stats.incorrectCount + 1 < 3 →
        (updateCard mastCard.id false mastCard).stats.status = CardStatus.mastered) ∧
      (mastCard.stats.correctStreak + 1 < 3 →
        (updateCard mastCard.id true mastCard).stats.status = CardStatus.learning) ∧
      updateCard mastCard.id false mastCard ∈
        handleUpdateCard [mastCard] mastCard.id false) :=
  ⟨by decide, rfl, mastery_not_sticky [mastCard] mastCard (by decide) rfl⟩

/-- Claim C9 counterexample: recording an answer for an id that matches no
card returns the collection unchanged — it succeeds silently, while the
spec-modelled contract demands a `NotFound` failure. -/
theorem recordAnswer_unknown_id_counterexample :
    handleUpdateCard [cardA] "zz" true = [cardA] ∧
    recordAnswerSpec [cardA] "zz" true = Except.error RecordError.notFound :=
  ⟨by decide, rfl⟩

/-- Claim C9 (amended): `handleUpdateCard` on an id that matches no card in
the collection is a silent no-op: it returns the collection unchanged and
raises no error. -/
theorem recordAnswer_unknown_id_noop (cards : List Flashcard) (id : String) (b : Bool)
    (h : ∀ c ∈ cards, c.id ≠ id) :
    handleUpdateCard cards id b = cards := by
  show cards.map (updateCard id b) = cards
  rw [List.map_congr_left (fun c hc => updateCard_ne id b c (h c hc))]
  exact List.map_id cards

theorem recordAnswer_unknown_id_noop_witness :
    (∀ c ∈ [cardA], c.id ≠ "zz") ∧ handleUpdateCard [cardA] "zz" true = [cardA] :=
  ⟨by decide, recordAnswer_unknown_id_noop [cardA] "zz" true (by decide)⟩

/-- Claim C10: an incorrect answer on a card whose status is still `new`,
when the resulting incorrect count stays below 3, leaves the status `new`
(the card is not promoted to learning). -/
theorem new_card_stays_new_on_incorrect (cards : List Flashcard) (c : Flashcard)
    (hc : c ∈ cards) (hnew : c.stats.status = CardStatus.new)
    (hlow : c.stats.incorrectCount + 1 < 3) :
    (updateCard c.id false c).stats.status = CardStatus.new ∧
    (updateCard c.id false c).stats.incorrectCount = c.stats.incorrectCount + 1 ∧
    updateCard c.id false c ∈ handleUpdateCard cards c.id false := by
  refine ⟨?_, ?_, List.mem_map_of_mem (updateCard c.id false) hc⟩
  · rw [updateCard_incorrect c.id c rfl]
    simp only []
    rw [if_neg (by omega)]
    exact hnew
  · rw [updateCard_incorrect c.id c rfl]

theorem new_card_stays_new_witness :
    cardA ∈ [cardA] ∧ cardA.stats.status = CardStatus.new ∧
    cardA.stats.incorrectCount + 1 < 3 ∧
    ((updateCard cardA.id false cardA).stats.status = CardStatus.new ∧
      (updateCard cardA.id false cardA).stats.incorrectCount =
        cardA.stats.incorrectCount + 1 ∧
      updateCard cardA.id false cardA ∈ handleUpdateCard [cardA] cardA.id false) :=
  ⟨by decide, rfl, by decide,
    new_card_stays_new_on_incorrect [cardA] cardA (by decide) rfl (by decide)⟩

/-! ## Claims about purging mastered cards -/

/-- Claim C8 counterexample: on a collection of two cards with one mastered
card, `clearMasteredCards` shrinks the collection to one card but the only
numbers the operation produces — the two values it logs — are both the old
length 2; in particular neither equals the count of removed cards (1), and
no removed-count is returned. -/
theorem purge_no_count_counterexample :
    ((clearMasteredCards [cardA, mastCard]).1).length = 1 ∧
    (clearMasteredCards [cardA, mastCard]).2.1 = 2 ∧
    (clearMasteredCards [cardA, mastCard]).2.2 = 2 ∧
    ¬ (clearMasteredCards [cardA, mastCard]).2.2 =
        [cardA, mastCard].length - ((clearMasteredCards [cardA, mastCard]).1).length := by
  refine ⟨by decide, rfl, rfl, by decide⟩

/-- Claim C8 (amended): `clearMasteredCards` removes exactly the mastered
cards (no mastered card survives and every non-mastered card survives),
and a second application removes nothing; but it returns no removed-count —
the only numbers it produces are the two it logs, and both equal the
pre-removal length. -/
theorem purge_filters_mastered (cards : List Flashcard) :
    (∀ c ∈ (clearMasteredCards cards).1, c.stats.status ≠ CardStatus.mastered) ∧
    (∀ c ∈ cards, c.stats.status ≠ CardStatus.mastered → c ∈ (clearMasteredCards cards).1) ∧
    (clearMasteredCards (clearMasteredCards cards).1).1 = (clearMasteredCards cards).1 ∧
    (clearMasteredCards cards).2 = (cards.length, cards.length) := by
  refine ⟨?_, ?_, ?_, rfl⟩
  · intro c hc
    have := (List.mem_filter.1 hc).2
    simpa using this
  · intro c hc hne
    exact List.mem_filter.2 ⟨hc, by simpa using hne⟩
  · show (List.filter _ cards).filter _ = List.filter _ cards
    rw [List.filter_filter]
    simp

theorem purge_filters_mastered_witness :
    cardA ∈ [cardA, mastCard] ∧ cardA.stats.status ≠ CardStatus.mastered ∧
    cardA ∈ (clearMasteredCards [cardA, mastCard]).1 :=
  ⟨by decide, by decide,
    (purge_filters_mastered [cardA, mastCard]).2.1 cardA (by decide) (by decide)⟩

/-! ## Claims about the review session pointer -/

/-- Claim C7 counterexample: starting from two active cards at pointer 0,
advancing moves the pointer to 1; then a correct answer masters the second
card, the recomputed active subset shrinks to one card while active cards
remain, and reading the pointer yields no card (the component renders
nothing) — so the pointer is not always a valid index into the recomputed
active subset. -/
theorem review_pointer_invalid_counterexample :
    activeCards [cardA, cardB] = [cardA, cardB] ∧
    handleNext [cardA, cardB] 0 = 1 ∧
    (handleUpdateCard [cardA, cardB] "b" true).map (fun c => c.stats.status) =
      [CardStatus.new, CardStatus.mastered] ∧
    activeCards (handleUpdateCard [cardA, cardB] "b" true) ≠ [] ∧
    currentCard (handleUpdateCard [cardA, cardB] "b" true) 1 = none := by
  refine ⟨by decide, by decide, by decide, by decide, by decide⟩

/-- Claim C7 (amended): advancing always lands on a valid index of the
recomputed active sequence whenever it is non-empty (the next index if one
exists, else 0); a pointer that is in range reads an active, non-mastered
card; but a pointer past the end of the shrunken active subset reads no
card at all — the session then renders nothing instead of recomputing a
valid position. -/
theorem review_advance_in_range (cards : List Flashcard) (idx : Nat) :
    (activeCards cards ≠ [] → handleNext cards idx < (activeCards cards).length) ∧
    ((activeCards cards).length ≤ idx → currentCard cards idx = none) ∧
    (idx < (activeCards cards).length →
      ∃ c, currentCard cards idx = some c ∧ c ∈ activeCards cards ∧
        c.stats.status ≠ CardStatus.mastered) := by
  refine ⟨?_, ?_, ?_⟩
  · intro h
    have hpos : 0 < (activeCards cards).length := List.length_pos.2 h
    unfold handleNext
    split
    · omega
    · exact hpos
  · intro h
    exact List.getElem?_eq_none h
  · intro h
    refine ⟨(activeCards cards)[idx], List.getElem?_eq_getElem h, List.getElem_mem h, ?_⟩
    have hmem : (activeCards cards)[idx] ∈
        cards.filter (fun c => decide (c.stats.status ≠ CardStatus.mastered)) :=
      List.getElem_mem h
    have := (List.mem_filter.1 hmem).2
    simpa using this

theorem review_advance_in_range_witness :
    (activeCards [cardA, cardB] ≠ [] ∧
      handleNext [cardA, cardB] 0 < (activeCards [cardA, cardB]).length) ∧
    ((activeCards [cardA]).length ≤ 3 ∧ currentCard [cardA] 3 = none) :=
  ⟨⟨by decide, (review_advance_in_range [cardA, cardB] 0).1 (by decide)⟩,
    ⟨by decide, (review_advance_in_range [cardA] 3).2.1 (by decide)⟩⟩

/-! ## Claim about answer equivalence -/

theorem dropWhile_eq_self_of_none (p : Char → Bool) (l : List Char)
    (h : ∀ c ∈ l, p c = false) : l.dropWhile p = l := by
  cases l with
  | nil => rfl
  | cons a as =>
    exact List.dropWhile_cons_of_neg (by simp [h a (List.mem_cons_self a as)])

theorem jsTrim_of_no_ws (l : List Char)
    (h : ∀ c ∈ l, isJsWhitespace c = false) : jsTrim l = l := by
  unfold jsTrim
  rw [dropWhile_eq_self_of_none _ _ h]
  rw [dropWhile_eq_self_of_none _ _ (fun c hc => h c (List.mem_reverse.1 hc))]
  exact List.reverse_reverse l

theorem normalizeAnswer_eq_filter (s : String) :
    normalizeAnswer s = s.data.filter (fun c => !isJsWhitespace c) := by
  unfold normalizeAnswer removeAllWhitespace
  apply jsTrim_of_no_ws
  intro c hc
  have := (List.mem_filter.1 hc).2
  simpa using this

/-- Claim C5: `handleCheck` deems a typed answer and a card's `backCode`
equivalent exactly when the two strings are identical after removing every
whitespace character from both, compared case-sensitively; in particular
`" x = 1 "` is equivalent to `"x=1"`, while `"x = 1"` and `"x = 2"` are
not. -/
theorem answer_equivalence_strip_whitespace :
    (∀ a b : String, answersEquivalent a b = true ↔
      a.data.filter (fun c => !isJsWhitespace c) =
        b.data.filter (fun c => !isJsWhitespace c)) ∧
    answersEquivalent " x = 1 " "x=1" = true ∧
    answersEquivalent "x = 1" "x = 2" = false := by
  refine ⟨fun a b => ?_, by decide, by decide⟩
  unfold answersEquivalent
  rw [normalizeAnswer_eq_filter, normalizeAnswer_eq_filter]
  exact beq_iff_eq

/-! ## Claims about the retry pipeline -/

theorem analyzeLoop_success_step (collab : Nat → AttemptOutcome) (a : Nat)
    (ds : List Nat) (v : ParsedDiagnosis) (ha : a < 5)
    (hv : collab a = AttemptOutcome.parsed v) :
    analyzeLoop collab a ds = ⟨Except.ok v, a + 1, ds⟩ := by
  unfold analyzeLoop
  rw [if_pos ha, hv]

theorem analyzeLoop_fail_step (collab : Nat → AttemptOutcome) (a : Nat)
    (ds : List Nat) (ha : a < 5) (hf : isFailure (collab a) = true) :
    analyzeLoop collab a ds =
      if a + 1 ≥ 5 then ⟨Except.error AnalysisError.failedAfterRetries, a + 1, ds⟩
      else analyzeLoop collab (a + 1) (ds ++ [1000 * 2 ^ (a + 1 - 1)]) := by
  conv_lhs => unfold analyzeLoop
  rw [if_pos ha]
  cases hc : collab a with
  | parsed v => rw [hc] at hf; simp [isFailure] at hf
  | netError => rfl
  | emptyText => rfl
  | parseError => rfl

theorem analyzeLoop_attempts_le (collab : Nat → AttemptOutcome) :
    ∀ (k a : Nat) (ds : List Nat), 5 - a ≤ k → a ≤ 5 →
      (analyzeLoop collab a ds).attemptsMade ≤ 5 := by
  intro k
  induction k with
  | zero =>
    intro a ds hk ha
    have h5 : a = 5 := by omega
    subst h5
    unfold analyzeLoop
    rw [if_neg (by omega)]
  | succ k ih =>
    intro a ds hk ha
    by_cases h5 : a < 5
    · by_cases hpar : ∃ v, collab a = AttemptOutcome.parsed v
      · obtain ⟨v, hv⟩ := hpar
        rw [analyzeLoop_success_step collab a ds v h5 hv]
        show a + 1 ≤ 5
        omega
      · have hf : isFailure (collab a) = true := by
          cases hc : collab a with
          | parsed v => exact absurd ⟨v, hc⟩ hpar
          | netError => rfl
          | emptyText => rfl
          | parseError => rfl
        rw [analyzeLoop_fail_step collab a ds h5 hf]
        by_cases h45 : a + 1 ≥ 5
        · rw [if_pos h45]
          show a + 1 ≤ 5
          omega
        · rw [if_neg h45]
          exact ih (a + 1) _ (by omega) (by omega)
    · unfold analyzeLoop
      rw [if_neg h5]
      show a ≤ 5
      omega

/-- Claim C3: `analyzeCode` makes at most 5 collaborator attempts; when
every attempt fails it throws the terminal failed-after-retries error after
exactly the 5th failure, having slept exactly 1000, 2000, 4000 and 8000
milliseconds between consecutive attempts. -/
theorem analyzeCode_retry_budget (collab : Nat → AttemptOutcome) :
    (analyzeCode true collab).attemptsMade ≤ 5 ∧
    ((∀ k, k < 5 → isFailure (collab k) = true) →
      analyzeCode true collab =
        ⟨Except.error AnalysisError.failedAfterRetries, 5, [1000, 2000, 4000, 8000]⟩) := by
  constructor
  · show (analyzeLoop collab 0 []).attemptsMade ≤ 5
    exact analyzeLoop_attempts_le collab 5 0 [] (by omega) (by omega)
  · intro hf
    show analyzeLoop collab 0 [] = _
    rw [analyzeLoop_fail_step collab 0 [] (by omega) (hf 0 (by omega)), if_neg (by omega)]
    rw [analyzeLoop_fail_step collab 1 _ (by omega) (hf 1 (by omega)), if_neg (by omega)]
    rw [analyzeLoop_fail_step collab 2 _ (by omega) (hf 2 (by omega)), if_neg (by omega)]
    rw [analyzeLoop_fail_step collab 3 _ (by omega) (hf 3 (by omega)), if_neg (by omega)]
    rw [analyzeLoop_fail_step collab 4 _ (by omega) (hf 4 (by omega)), if_pos (by omega)]
    norm_num

theorem analyzeCode_retry_budget_witness :
    (∀ k, k < 5 → isFailure (collabAllFail k) = true) ∧
    analyzeCode true collabAllFail =
      ⟨Except.error AnalysisError.failedAfterRetries, 5, [1000, 2000, 4000, 8000]⟩ :=
  ⟨fun _ _ => rfl, (analyzeCode_retry_budget collabAllFail).2 (fun _ _ => rfl)⟩

theorem analyzeLoop_skip_failures (collab : Nat → AttemptOutcome) :
    ∀ (m a : Nat) (ds : List Nat) (v : ParsedDiagnosis), a + m < 5 →
      (∀ j, a ≤ j → j < a + m → isFailure (collab j) = true) →
      collab (a + m) = AttemptOutcome.parsed v →
      (analyzeLoop collab a ds).result = Except.ok v := by
  intro m
  induction m with
  | zero =>
    intro a ds v h5 _ hv
    rw [analyzeLoop_success_step collab a ds v (by omega) (by simpa using hv)]
  | succ m ih =>
    intro a ds v h5 hf hv
    rw [analyzeLoop_fail_step collab a ds (by omega) (hf a (by omega) (by omega))]
    rw [if_neg (by omega)]
    refine ih (a + 1) _ v (by omega) (fun j h1 h2 => hf j (by omega) (by omega)) ?_
    rw [show a + 1 + m = a + (m + 1) by omega]
    exact hv

/-- Claim C4 counterexample: a collaborator response whose text parses as
the empty JSON object is accepted and returned as the diagnosis, even
though it has no `rawError` and no `trace` at all — the spec-modelled
acceptance condition rejects it, so a successful return can be a partial,
invalid result. -/
theorem analyzeCode_partial_result_counterexample :
    (analyzeCode true collabEmptyObj).result = Except.ok emptyParsed ∧
    ¬ specUsableDiagnosis emptyParsed := by
  constructor
  · show (analyzeLoop collabEmptyObj 0 []).result = Except.ok emptyParsed
    rw [analyzeLoop_success_step collabEmptyObj 0 [] emptyParsed (by omega) rfl]
  · intro h
    obtain ⟨⟨s, hs, _⟩, _⟩ := h
    simp [emptyParsed] at hs

/-- Claim C4 (amended): `analyzeCode` accepts a collaborator response
exactly when the request does not throw, the text is non-empty, and it
parses as JSON; the parsed value is then returned unchanged with no field
validation, so whichever runtime value parsing produced — with or without
`rawError` and `trace` — becomes the returned diagnosis. -/
theorem analyzeCode_accepts_any_parsed (collab : Nat → AttemptOutcome) (k : Nat)
    (v : ParsedDiagnosis) (hk : k < 5)
    (hf : ∀ j, j < k → isFailure (collab j) = true)
    (hv : collab k = AttemptOutcome.parsed v) :
    (analyzeCode true collab).result = Except.ok v := by
  show (analyzeLoop collab 0 []).result = Except.ok v
  exact analyzeLoop_skip_failures collab k 0 [] v (by omega)
    (fun j _ h2 => hf j (by omega)) (by simpa using hv)

theorem analyzeCode_accepts_any_parsed_witness :
    0 < 5 ∧ collabEmptyObj 0 = AttemptOutcome.parsed emptyParsed ∧
    (analyzeCode true collabEmptyObj).result = Except.ok emptyParsed :=
  ⟨by omega, rfl,
    analyzeCode_accepts_any_parsed collabEmptyObj 0 emptyParsed (by omega)
      (fun j hj => absurd hj (by omega)) rfl⟩

/-! ## Claims about flashcard ingestion and id synthesis -/

theorem digitsVal_append (l : List Char) (c : Char) :
    digitsVal (l ++ [c]) = 10 * digitsVal l + (c.toNat - 48) := by
  unfold digitsVal
  rw [List.foldl_append]
  rfl

theorem toDigitsCore_shift (b : Nat) :
    ∀ (f n : Nat) (l : List Char),
      Nat.toDigitsCore b f n l = Nat.toDigitsCore b f n [] ++ l := by
  intro f
  induction f with
  | zero => intro n l; rfl
  | succ f ih =>
    intro n l
    simp only [Nat.toDigitsCore]
    by_cases h : n / b = 0
    · rw [if_pos h, if_pos h]
      rfl
    · rw [if_neg h, if_neg h, ih (n / b) (Nat.digitChar (n % b) :: l),
        ih (n / b) [Nat.digitChar (n % b)], List.append_assoc]
      rfl

theorem digitChar_toNat_sub : ∀ m, m < 10 → (Nat.digitChar m).toNat - 48 = m := by
  decide

theorem toDigitsCore_digitsVal :
    ∀ (f n : Nat), n < f → digitsVal (Nat.toDigitsCore 10 f n []) = n := by
  intro f
  induction f with
  | zero => intro n h; omega
  | succ f ih =>
    intro n h
    simp only [Nat.toDigitsCore]
    by_cases h0 : n / 10 = 0
    · rw [if_pos h0]
      have hn : n < 10 := by omega
      have hval : digitsVal [Nat.digitChar (n % 10)] =
          (Nat.digitChar (n % 10)).toNat - 48 := by
        unfold digitsVal
        simp
      rw [hval, Nat.mod_eq_of_lt hn, digitChar_toNat_sub n hn]
    · rw [if_neg h0, toDigitsCore_shift 10 f (n / 10) [Nat.digitChar (n % 10)],
        digitsVal_append]
      have hdiv : n / 10 < f := by omega
      rw [ih (n / 10) hdiv, digitChar_toNat_sub (n % 10) (Nat.mod_lt n (by omega))]
      omega

theorem natRepr_injective : Function.Injective Nat.repr := by
  intro m n h
  have hdata : Nat.toDigitsCore 10 (m + 1) m [] = Nat.toDigitsCore 10 (n + 1) n [] :=
    congrArg String.data h
  have hm := toDigitsCore_digitsVal (m + 1) m (by omega)
  have hn := toDigitsCore_digitsVal (n + 1) n (by omega)
  rw [hdata] at hm
  omega

theorem mkCardId_inj_right (now : Nat) : Function.Injective (mkCardId now) := by
  intro i j h
  have hd := congrArg String.data h
  simp only [mkCardId, String.data_append] at hd
  have hcancel := List.append_cancel_left hd
  exact natRepr_injective (String.ext hcancel)

theorem mkNewCards_length (now : Nat) :
    ∀ (ds : List FlashcardData) (i : Nat), (mkNewCards now i ds).length = ds.length := by
  intro ds
  induction ds with
  | nil => intro i; rfl
  | cons d ds ih => intro i; simp [mkNewCards, ih (i + 1)]

theorem mkNewCards_map_data (now : Nat) :
    ∀ (ds : List FlashcardData) (i : Nat),
      (mkNewCards now i ds).map (fun c => c.toFlashcardData) = ds := by
  intro ds
  induction ds with
  | nil => intro i; rfl
  | cons d ds ih => intro i; simp [mkNewCards, ih (i + 1)]

theorem mkNewCards_stats (now : Nat) :
    ∀ (ds : List FlashcardData) (i : Nat) (c : Flashcard),
      c ∈ mkNewCards now i ds → c.stats = newCardStats := by
  intro ds
  induction ds with
  | nil => intro i c h; simp [mkNewCards] at h
  | cons d ds ih =>
    intro i c h
    rcases List.mem_cons.1 h with h | h
    · subst h; rfl
    · exact ih (i + 1) c h

theorem mkNewCards_map_id (now : Nat) :
    ∀ (ds : List FlashcardData) (i : Nat),
      (mkNewCards now i ds).map (fun c => c.id) =
        (List.range' i ds.length).map (mkCardId now) := by
  intro ds
  induction ds with
  | nil => intro i; rfl
  | cons d ds ih =>
    intro i
    simp only [mkNewCards, List.map_cons, List.length_cons, List.range'_succ]
    rw [ih (i + 1)]

theorem mkNewCards_ids_nodup (now : Nat) (ds : List FlashcardData) (i : Nat) :
    ((mkNewCards now i ds).map (fun c => c.id)).Nodup := by
  rw [mkNewCards_map_id now ds i]
  exact (List.nodup_range' i ds.length 1 (by norm_num)).map (mkCardId_inj_right now)

/-- Claim C6 counterexample: two ingest calls at the same timestamp produce
colliding ids — the single card of the second batch receives the id
`"7-0"` already carried by a card in the collection, so ids are not unique
relative to the existing collection when calls share a timestamp. -/
theorem ingest_id_collision_counterexample :
    (handleDiagnoseCards (handleDiagnoseCards [] 7 [draftOne]) 7 [draftTwo]).map
        (fun c => c.id) = ["7-0", "7-0"] ∧
    ¬ ((handleDiagnoseCards (handleDiagnoseCards [] 7 [draftOne]) 7 [draftTwo]).map
        (fun c => c.id)).Nodup := by
  constructor <;> decide

/-- Claim C6 (amended): ingestion appends the new cards after the existing
collection, leaving existing cards unmodified and unreordered, preserves
draft order, initializes every new card's stats to
`{correctStreak := 0, incorrectCount := 0, status := 'new'}`, and the ids
created within one call are pairwise distinct; ids are only collision-free
within a single call — two calls at the same timestamp can collide. -/
theorem ingest_append_and_batch_ids (prev : List Flashcard) (now : Nat)
    (drafts : List FlashcardData) :
    (handleDiagnoseCards prev now drafts).take prev.length = prev ∧
    (handleDiagnoseCards prev now drafts).length = prev.length + drafts.length ∧
    ((handleDiagnoseCards prev now drafts).drop prev.length).map
      (fun c => c.toFlashcardData) = drafts ∧
    (∀ c ∈ (handleDiagnoseCards prev now drafts).drop prev.length,
      c.stats = newCardStats) ∧
    (((handleDiagnoseCards prev now drafts).drop prev.length).map
      (fun c => c.id)).Nodup := by
  unfold handleDiagnoseCards
  rw [List.take_left, List.drop_left]
  refine ⟨rfl, ?_, mkNewCards_map_data now drafts 0, mkNewCards_stats now drafts 0,
    mkNewCards_ids_nodup now drafts 0⟩
  rw [List.length_append, mkNewCards_length now drafts 0]

theorem ingest_append_witness :
    (handleDiagnoseCards [cardA] 7 [draftOne, draftTwo]).take 1 = [cardA] ∧
    (((handleDiagnoseCards [cardA] 7 [draftOne, draftTwo]).drop 1).map
      (fun c => c.id)).Nodup ∧
    { toFlashcardData := draftOne, id := "7-0", stats := newCardStats } ∈
      (handleDiagnoseCards [cardA] 7 [draftOne, draftTwo]).drop 1 ∧
    ({ toFlashcardData := draftOne, id := "7-0", stats := newCardStats } :
      Flashcard).stats = newCardStats :=
  ⟨(ingest_append_and_batch_ids [cardA] 7 [draftOne, draftTwo]).1,
    (ingest_append_and_batch_ids [cardA] 7 [draftOne, draftTwo]).2.2.2.2,
    by decide,
    (ingest_append_and_batch_ids [cardA] 7 [draftOne, draftTwo]).2.2.2.1
      { toFlashcardData := draftOne, id := "7-0", stats := newCardStats } (by decide)⟩
